import Mathlib

/-
Verification of the version-check tool (cv.py): a shallow embedding of its
data model and operations, followed by theorems about the claimed behaviour.

Python strings are modelled as Lean String, Python exceptions as the CvError
sum type returned through Except, the single HTTP GET as an abstract fetch
function producing a FetchResult, and the process module cache entry for the
one resolved name as an Option PyModule.
-/

/-- Errors of cv.py. The first five mirror the exception classes defined in
cv.py (InvalidRequirements, VersionTypeMismatch, InvalidVersionFormat,
VersionExists, PypiError); urlError stands for an uncaught
urllib.error.URLError escaping check_unique (cv.py catches only HTTPError). -/
inductive CvError where
  | invalidRequirements (msg : String)
  | versionTypeMismatch (version : String) (actual expected : Nat)
  | invalidVersionFormat (name version : String)
  | versionExists (name version : String)
  | pypiError (name : String)
  | urlError
deriving DecidableEq

/-- Outcome of the single urlopen GET against the registry: an HTTP error
status (urllib raises HTTPError), a plain transport failure such as
connection refused or DNS failure (urllib raises URLError, which is not an
HTTPError), or a successful response whose parsed JSON body has a releases
mapping with the given list of version-string keys. -/
inductive FetchResult where
  | httpError
  | urlError
  | success (releases : List String)
deriving DecidableEq

/-- A loaded Python module, reduced to the one attribute cv.py reads. -/
structure PyModule where
  version : String
deriving DecidableEq

/-- The argparse namespace produced by parser.parse_args in cv.py, with its
eight destinations in declaration order. -/
structure ArgNamespace where
  module : String
  warehouse : String
  alpha : Bool
  beta : Bool
  rc : Bool
  dev : Bool
  release : Bool
  dry : Bool
deriving DecidableEq

/-- The Parameters NamedTuple of cv.py. -/
structure Parameters where
  warehouse : String
  package : String
  version : String
  expected_type : Option Nat
  dry_run : Bool
deriving DecidableEq

/-- Does the needle match at the head of the haystack (character lists). -/
def leadMatch : List Char → List Char → Bool
  | [], _ => true
  | _ :: _, [] => false
  | a :: as, b :: bs => a == b && leadMatch as bs

/-- Substring occurrence on character lists, embedding the Python
expression needle in haystack. -/
def occursInList (needle : List Char) : List Char → Bool
  | [] => leadMatch needle []
  | c :: rest => leadMatch needle (c :: rest) || occursInList needle rest

/-- Substring occurrence on strings, embedding Python needle in haystack. -/
def occursIn (needle hay : String) : Bool :=
  occursInList needle.data hay.data

/-- VersionType.RELEASE of cv.py (IntFlag value 0). -/
def VersionType.RELEASE : Nat := 0

/-- VersionType.ALPHA of cv.py (IntFlag value 1). -/
def VersionType.ALPHA : Nat := 1

/-- VersionType.BETA of cv.py (IntFlag value 2). -/
def VersionType.BETA : Nat := 2

/-- VersionType.RC of cv.py (IntFlag value 4). -/
def VersionType.RC : Nat := 4

/-- VersionType.DEV of cv.py (IntFlag value 8). -/
def VersionType.DEV : Nat := 8

/-- VersionType.parse of cv.py: start from RELEASE and OR in ALPHA, BETA,
RC, DEV according to substring presence of "a", "b", "rc", "dev". -/
def VersionType.parse (version : String) : Nat :=
  let version_type := VersionType.RELEASE
  let version_type := if occursIn "a" version then version_type ||| VersionType.ALPHA else version_type
  let version_type := if occursIn "b" version then version_type ||| VersionType.BETA else version_type
  let version_type := if occursIn "rc" version then version_type ||| VersionType.RC else version_type
  let version_type := if occursIn "dev" version then version_type ||| VersionType.DEV else version_type
  version_type

/-- Modelled from the spec: ASCII lower-casing of one character, the
per-character piece of the "lower-case" step of the PEP 440 safe-version
transformation described in the spec (pkg_resources.safe_version is a
dependency, not part of this repository's sources). -/
def lowerChar (c : Char) : Char :=
  if 65 ≤ c.toNat && c.toNat ≤ 90 then Char.ofNat (c.toNat + 32) else c

/-- Modelled from the spec: the characters the safe-version transformation
keeps as-is — ASCII alphanumerics, plus "." which the spec's scenarios show
is preserved (the scenario normalizes "1.0.0A1" to "1.0.0a1", keeping the
dots). Every run of other characters is collapsed to a single "-". -/
def isSafeChar (c : Char) : Bool :=
  (65 ≤ c.toNat && c.toNat ≤ 90) || (97 ≤ c.toNat && c.toNat ≤ 122) ||
    (48 ≤ c.toNat && c.toNat ≤ 57) || c == '.'

/-- Modelled from the spec: collapse every maximal run of unsafe characters
into a single "-". The flag records whether we are currently inside an
unsafe run whose "-" has already been emitted. -/
def collapseAux : Bool → List Char → List Char
  | _, [] => []
  | inRun, c :: rest =>
    if isSafeChar c then c :: collapseAux false rest
    else if inRun then collapseAux inRun rest
    else '-' :: collapseAux true rest

/-- Modelled from the spec: collapse runs of unsafe characters, starting
outside any run. -/
def collapseRuns (l : List Char) : List Char :=
  collapseAux false l

/-- Modelled from the spec: pkg_resources.safe_version, the canonical
normalization used by check_version_format — lower-case the string and
collapse each run of non-alphanumeric, non-dot characters to a single "-".
The function itself is a dependency of cv.py, not part of this repository's
sources, so it is embedded from the spec's description and scenarios. -/
def safe_version (version : String) : String :=
  String.mk (collapseRuns (version.data.map lowerChar))

/-- check_unique of cv.py. The network interaction is abstracted as a fetch
function from (warehouse, name) to a FetchResult. cv.py wraps urlopen in a
try/except that catches only HTTPError and re-raises it as PypiError; any
other URLError propagates uncaught. On success the releases keys are
extracted and membership of the version decides VersionExists. There is a
single fetch — no retry. -/
def check_unique (name version : String) (warehouse : String)
    (fetch : String → String → FetchResult) : Except CvError Unit :=
  match fetch warehouse name with
  | FetchResult.httpError => Except.error (CvError.pypiError name)
  | FetchResult.urlError => Except.error CvError.urlError
  | FetchResult.success releases =>
    if version ∈ releases then Except.error (CvError.versionExists name version)
    else Except.ok ()

/-- check_version_format of cv.py: raise InvalidVersionFormat when the
safe_version normal form differs from the input. -/
def check_version_format (name version : String) : Except CvError Unit :=
  if safe_version version ≠ version then
    Except.error (CvError.invalidVersionFormat name version)
  else Except.ok ()

/-- check_version_type of cv.py: classify the version and raise
VersionTypeMismatch when the classification differs from the expected one. -/
def check_version_type (expected : Nat) (version : String) : Except CvError Unit :=
  let actual := VersionType.parse version
  if actual ≠ expected then
    Except.error (CvError.versionTypeMismatch version actual expected)
  else Except.ok ()

/-- The private helper _parse_version_type of cv.py, deciding the expected
VersionType (or none) from the five channel flags, raising
InvalidRequirements on the forbidden combinations. -/
def _parse_version_type (parameters : ArgNamespace) : Except CvError (Option Nat) :=
  if !(parameters.release || parameters.alpha || parameters.beta || parameters.rc || parameters.dev) then
    Except.ok none
  else
    match
      (if parameters.release then
        if parameters.alpha || parameters.beta || parameters.rc || parameters.dev then
          Except.error (CvError.invalidRequirements
            "--release cannot be combined with --alpha, --beta, --rc, or --dev")
        else Except.ok VersionType.RELEASE
      else if parameters.alpha then
        if parameters.beta || parameters.rc then
          Except.error (CvError.invalidRequirements "--alpha, --beta and --rc cannot be combined")
        else Except.ok VersionType.ALPHA
      else if parameters.beta then
        if parameters.alpha || parameters.rc then
          Except.error (CvError.invalidRequirements "--alpha, --beta and --rc cannot be combined")
        else Except.ok VersionType.BETA
      else if parameters.rc then Except.ok VersionType.RC
      else Except.ok VersionType.RELEASE : Except CvError Nat) with
    | Except.error e => Except.error e
    | Except.ok version_type =>
      Except.ok (some (if parameters.dev then version_type ||| VersionType.DEV else version_type))

/-- The private helper _resolve_module of cv.py, restricted to the one
sys.modules entry it touches. Input: the module as freshly imported from
disk, and the prior sys.modules entry for the name. Output: the module the
call returns and the sys.modules entry for the name after the call.
cv.py pops the entry, calls import_module (which loads the fresh copy and
records it in sys.modules), then restores the old entry only when
old_module is truthy — and a module object is always truthy, so restoration
happens exactly when an entry existed. -/
def _resolve_module (fresh : PyModule) (modulesEntry : Option PyModule) :
    PyModule × Option PyModule :=
  let old_module := modulesEntry
  let entryAfterImport : Option PyModule := some fresh
  let finalEntry :=
    match old_module with
    | some m => some m
    | none => entryAfterImport
  (fresh, finalEntry)

/-- The success message printed by main in cv.py, an f-string whose tail is
the literal text "is valid and not present on PyPI." -/
def okMessage (package version : String) : String :=
  "OK: " ++ package ++ " " ++ version ++ " is valid and not present on PyPI."

/-- The pipeline of main in cv.py after argument resolution: format check,
optional type check, registry check unless dry-run, then the OK message. -/
def cv.main (p : Parameters) (fetch : String → String → FetchResult) : Except CvError String :=
  match check_version_format p.package p.version with
  | Except.error e => Except.error e
  | Except.ok _ =>
    match
      (match p.expected_type with
      | some expected => check_version_type expected p.version
      | none => Except.ok () : Except CvError Unit) with
    | Except.error e => Except.error e
    | Except.ok _ =>
      match
        (if !p.dry_run then check_unique p.package p.version p.warehouse fetch
        else Except.ok () : Except CvError Unit) with
      | Except.error e => Except.error e
      | Except.ok _ => Except.ok (okMessage p.package p.version)

/-- Process exit code of a run: 0 when cv.main returns normally, 1 when an
exception escapes (Python terminates with a non-zero code on an uncaught
exception). -/
def exitCode (r : Except CvError String) : Nat :=
  match r with
  | Except.ok _ => 0
  | Except.error _ => 1

/-- Discriminator: did _parse_version_type fail with InvalidRequirements. -/
def isInvalidRequirements (r : Except CvError (Option Nat)) : Bool :=
  match r with
  | Except.error (CvError.invalidRequirements _) => true
  | _ => false

/-- Discriminator: did check_unique fail with PypiError. -/
def isPypiError (r : Except CvError Unit) : Bool :=
  match r with
  | Except.error (CvError.pypiError _) => true
  | _ => false

/-- The format check and the (optional) type check of main both pass. -/
def checksPass (p : Parameters) : Bool :=
  (check_version_format p.package p.version).isOk &&
    (match p.expected_type with
    | some expected => (check_version_type expected p.version).isOk
    | none => true)

/-- A Char built from a codepoint below the surrogate range keeps that
codepoint. -/
theorem char_toNat_ofNat_valid (n : Nat) (h : n < 55296) : (Char.ofNat n).toNat = n := by
  have hv : n.isValidChar := Or.inl h
  simp only [Char.ofNat, hv, dif_pos]
  rfl

/-- ASCII lower-casing is idempotent. -/
theorem lowerChar_lowerChar (c : Char) : lowerChar (lowerChar c) = lowerChar c := by
  unfold lowerChar
  by_cases h : 65 ≤ c.toNat ∧ c.toNat ≤ 90
  · have h1 : (65 ≤ c.toNat && c.toNat ≤ 90) = true := by simp [h.1, h.2]
    rw [if_pos h1]
    have ht : (Char.ofNat (c.toNat + 32)).toNat = c.toNat + 32 :=
      char_toNat_ofNat_valid _ (by omega)
    rw [if_neg]
    rw [ht]
    simp
    omega
  · have h1 : (65 ≤ c.toNat && c.toNat ≤ 90) = false := by
      rw [Bool.and_eq_false_iff]
      rcases Nat.lt_or_ge c.toNat 65 with hlt | hge
      · left; simp; omega
      · right; simp; omega
    rw [if_neg (by simp [h1]), if_neg (by simp [h1])]

/-- ASCII lower-casing preserves the class of safe characters. -/
theorem isSafeChar_lowerChar (c : Char) : isSafeChar (lowerChar c) = isSafeChar c := by
  unfold lowerChar
  by_cases h : 65 ≤ c.toNat ∧ c.toNat ≤ 90
  · have h1 : (65 ≤ c.toNat && c.toNat ≤ 90) = true := by simp [h.1, h.2]
    rw [if_pos h1]
    have ht : (Char.ofNat (c.toNat + 32)).toNat = c.toNat + 32 :=
      char_toNat_ofNat_valid _ (by omega)
    unfold isSafeChar
    rw [ht]
    have hls : (97 ≤ c.toNat + 32 && c.toNat + 32 ≤ 122) = true := by
      simp; omega
    have hus : (65 ≤ c.toNat && c.toNat ≤ 90) = true := h1
    simp [hls, hus]
  · have h1 : (65 ≤ c.toNat && c.toNat ≤ 90) = false := by
      rw [Bool.and_eq_false_iff]
      rcases Nat.lt_or_ge c.toNat 65 with hlt | hge
      · left; simp; omega
      · right; simp; omega
    rw [if_neg (by simp [h1])]

/-- The dash emitted by the collapsing step is not upper-case ASCII, so
lower-casing fixes it. -/
theorem lowerChar_dash : lowerChar '-' = '-' := by decide

/-- The dash emitted by the collapsing step is itself an unsafe character. -/
theorem isSafeChar_dash : isSafeChar '-' = false := by decide

/-- Collapsing unsafe runs is idempotent, uniformly in the run flag. -/
theorem collapseAux_idem (l : List Char) : ∀ b : Bool,
    collapseAux b (collapseAux b l) = collapseAux b l := by
  induction l with
  | nil => intro b; rfl
  | cons c rest ih =>
    intro b
    by_cases hc : isSafeChar c
    · simp only [collapseAux, hc, ite_true]
      rw [ih false]
    · cases b with
      | true =>
        simp only [collapseAux, hc, ite_false, Bool.false_eq_true, if_true]
        exact ih true
      | false =>
        simp only [collapseAux, hc, ite_false, Bool.false_eq_true]
        simp only [collapseAux, isSafeChar_dash, ite_false, Bool.false_eq_true]
        rw [ih true]

/-- Collapsing commutes with lower-casing, uniformly in the run flag. -/
theorem collapseAux_map_lowerChar (l : List Char) : ∀ b : Bool,
    collapseAux b (l.map lowerChar) = (collapseAux b l).map lowerChar := by
  induction l with
  | nil => intro b; rfl
  | cons c rest ih =>
    intro b
    by_cases hc : isSafeChar c
    · have hlc : isSafeChar (lowerChar c) = true := by rw [isSafeChar_lowerChar]; exact hc
      simp only [List.map_cons, collapseAux, hlc, hc, ite_true, List.map_cons]
      rw [ih false]
    · have hlc : isSafeChar (lowerChar c) = false := by rw [isSafeChar_lowerChar]; simpa using hc
      cases b with
      | true =>
        simp only [List.map_cons, collapseAux, hlc, hc, ite_false, Bool.false_eq_true, if_true]
        exact ih true
      | false =>
        simp only [List.map_cons, collapseAux, hlc, hc, ite_false, Bool.false_eq_true,
          List.map_cons, lowerChar_dash]
        rw [ih true]

/-- The safe-version normalization is idempotent. -/
theorem safe_version_idem (v : String) : safe_version (safe_version v) = safe_version v := by
  unfold safe_version collapseRuns
  apply congrArg String.mk
  have hdata : (String.mk (collapseAux false (v.data.map lowerChar))).data
      = collapseAux false (v.data.map lowerChar) := rfl
  rw [hdata]
  have step1 : List.map lowerChar (collapseAux false (List.map lowerChar v.data))
      = collapseAux false (List.map lowerChar (List.map lowerChar v.data)) :=
    (collapseAux_map_lowerChar (List.map lowerChar v.data) false).symm
  rw [step1]
  rw [List.map_map]
  have hmm : v.data.map (lowerChar ∘ lowerChar) = v.data.map lowerChar := by
    apply List.map_congr_left
    intro a _
    exact lowerChar_lowerChar a
  rw [hmm]
  exact collapseAux_idem _ false

/-- C8: check_version_format fails with InvalidFormat exactly when the
safe_version canonical form of the input differs from the input; the
normalization is idempotent, and an already-canonical string (in particular
any safe_version output) always passes the validator. -/
theorem c8_format_iff_canonical_and_idempotent (name version : String) :
    (check_version_format name version = Except.ok () ↔ safe_version version = version)
    ∧ safe_version (safe_version version) = safe_version version
    ∧ check_version_format name (safe_version version) = Except.ok () := by
  refine ⟨?_, safe_version_idem version, ?_⟩
  · unfold check_version_format
    by_cases h : safe_version version = version
    · simp [h]
    · simp [h]
  · unfold check_version_format
    simp [safe_version_idem version]

/-- C5: when the fetch succeeds and the body parses to a releases mapping
with the given keys, check_unique fails with VersionExists naming the
package and version exactly when the version is among the keys, and
returns silently for every version not among them. -/
theorem c5_version_exists_iff_member (name version warehouse : String) (rel : List String) :
    check_unique name version warehouse (fun _ _ => FetchResult.success rel)
      = (if version ∈ rel then Except.error (CvError.versionExists name version)
        else Except.ok ())
    ∧ ((check_unique name version warehouse (fun _ _ => FetchResult.success rel)
        = Except.error (CvError.versionExists name version)) ↔ version ∈ rel) := by
  constructor
  · rfl
  · unfold check_unique
    by_cases h : version ∈ rel
    · simp [h]
    · simp [h]

/-- C6: the parsed VersionType has the ALPHA bit iff "a" occurs in the
version string, the BETA bit iff "b" occurs, the RC bit iff "rc" occurs,
the DEV bit iff "dev" occurs; it equals RELEASE (the empty flag set) iff
none occurs, and equals exactly ALPHA iff "a" occurs and none of the other
three markers does. -/
theorem c6_parse_bit_characterization (v : String) :
    ((VersionType.parse v).testBit 0 = occursIn "a" v)
    ∧ ((VersionType.parse v).testBit 1 = occursIn "b" v)
    ∧ ((VersionType.parse v).testBit 2 = occursIn "rc" v)
    ∧ ((VersionType.parse v).testBit 3 = occursIn "dev" v)
    ∧ (VersionType.parse v = VersionType.RELEASE ↔
        (occursIn "a" v || occursIn "b" v || occursIn "rc" v || occursIn "dev" v) = false)
    ∧ (VersionType.parse v = VersionType.ALPHA ↔
        (occursIn "a" v && !occursIn "b" v && !occursIn "rc" v && !occursIn "dev" v) = true) := by
  cases h1 : occursIn "a" v <;> cases h2 : occursIn "b" v <;>
    cases h3 : occursIn "rc" v <;> cases h4 : occursIn "dev" v <;>
      simp [VersionType.parse, h1, h2, h3, h4, VersionType.RELEASE, VersionType.ALPHA,
        VersionType.BETA, VersionType.RC, VersionType.DEV] <;> decide

/-- C2 (amended): an HTTP error status (HTTPError, e.g. 404) makes
check_unique fail with PypiError naming the package, from the single fetch
with no retry; a plain transport failure (URLError that is not an
HTTPError) is not caught and escapes as the original URLError instead of a
PypiError. -/
theorem c2_http_error_pypi_error (name version warehouse : String) :
    check_unique name version warehouse (fun _ _ => FetchResult.httpError)
      = Except.error (CvError.pypiError name)
    ∧ check_unique name version warehouse (fun _ _ => FetchResult.urlError)
      = Except.error CvError.urlError := ⟨rfl, rfl⟩

/-- C2 counterexample: on a plain transport failure (connection refused or
DNS failure, i.e. an URLError that is not an HTTPError) check_unique does
not produce the PypiError the claim requires for every transport failure;
the exception escapes unconverted. -/
theorem c2_transport_error_counterexample :
    isPypiError (check_unique "pkg" "1.0.0" "https://pypi.org/pypi"
      (fun _ _ => FetchResult.urlError)) = false := rfl

/-- C3 (amended): _resolve_module restores the prior module-cache entry
when one existed; when the name had no cached entry beforehand, the freshly
imported module remains cached after the call. The returned module is
always the fresh import. -/
theorem c3_module_cache_restore (fresh old : PyModule) :
    (_resolve_module fresh (some old)).2 = some old
    ∧ (_resolve_module fresh none).2 = some fresh
    ∧ (_resolve_module fresh (some old)).1 = fresh
    ∧ (_resolve_module fresh none).1 = fresh := ⟨rfl, rfl, rfl, rfl⟩

/-- C3 counterexample: when the name had no cached entry before the call,
the module-cache entry after _resolve_module returns is occupied (by the
freshly imported module), not absent as it was beforehand — so the
operation is not side-effect-free on the cache in that case. -/
theorem c3_no_prior_entry_counterexample :
    ((_resolve_module (PyModule.mk "1.0.0") none).2).isSome = true := rfl

/-- C1 (amended): an argument vector with --release and --dev both set and
none of --alpha, --beta, --rc fails with InvalidRequirements — the release
branch rejects every companion channel flag, dev included — rather than
succeeding with RELEASE combined with DEV. -/
theorem c1_release_dev_invalid_requirements (ns : ArgNamespace)
    (ha : ns.alpha = false) (hb : ns.beta = false) (hc : ns.rc = false)
    (hd : ns.dev = true) (hr : ns.release = true) :
    isInvalidRequirements (_parse_version_type ns) = true := by
  obtain ⟨m, w, a, b, c, d, r, dr⟩ := ns
  cases a <;> cases b <;> cases c <;> cases d <;> cases r <;>
    simp_all [_parse_version_type, isInvalidRequirements]

/-- C1 witness: the concrete vector --release --dev satisfies the
hypotheses and is rejected with InvalidRequirements. -/
theorem c1_release_dev_invalid_requirements_witness :
    (ArgNamespace.mk "m" "w" false false false true true false).alpha = false
    ∧ (ArgNamespace.mk "m" "w" false false false true true false).beta = false
    ∧ (ArgNamespace.mk "m" "w" false false false true true false).rc = false
    ∧ (ArgNamespace.mk "m" "w" false false false true true false).dev = true
    ∧ (ArgNamespace.mk "m" "w" false false false true true false).release = true
    ∧ isInvalidRequirements (_parse_version_type
        (ArgNamespace.mk "m" "w" false false false true true false)) = true :=
  ⟨rfl, rfl, rfl, rfl, rfl,
    c1_release_dev_invalid_requirements
      (ArgNamespace.mk "m" "w" false false false true true false) rfl rfl rfl rfl rfl⟩

/-- C1 counterexample: with --release and --dev set and no other channel
flag, _parse_version_type does not succeed (so it cannot produce the
claimed RELEASE-plus-DEV expected type); it raises InvalidRequirements. -/
theorem c1_release_dev_rejected_counterexample :
    (_parse_version_type (ArgNamespace.mk "mod" "wh" false false false true true false)).isOk
      = false := rfl

/-- C7: whenever at least two of --alpha, --beta, --rc are set, regardless
of the remaining flags, _parse_version_type fails with InvalidRequirements. -/
theorem c7_pairwise_exclusive_invalid (ns : ArgNamespace)
    (h : (ns.alpha && ns.beta || ns.alpha && ns.rc || ns.beta && ns.rc) = true) :
    isInvalidRequirements (_parse_version_type ns) = true := by
  obtain ⟨m, w, a, b, c, d, r, dr⟩ := ns
  cases a <;> cases b <;> cases c <;> cases d <;> cases r <;>
    simp_all [_parse_version_type, isInvalidRequirements]

/-- C7 witness: the concrete vector --alpha --beta satisfies the
hypothesis and is rejected with InvalidRequirements. -/
theorem c7_pairwise_exclusive_invalid_witness :
    ((ArgNamespace.mk "m" "w" true true false false false false).alpha
        && (ArgNamespace.mk "m" "w" true true false false false false).beta
      || (ArgNamespace.mk "m" "w" true true false false false false).alpha
        && (ArgNamespace.mk "m" "w" true true false false false false).rc
      || (ArgNamespace.mk "m" "w" true true false false false false).beta
        && (ArgNamespace.mk "m" "w" true true false false false false).rc) = true
    ∧ isInvalidRequirements (_parse_version_type
        (ArgNamespace.mk "m" "w" true true false false false false)) = true :=
  ⟨rfl, c7_pairwise_exclusive_invalid
    (ArgNamespace.mk "m" "w" true true false false false false) rfl⟩

/-- C10: every expected VersionType that _parse_version_type accepts is
RELEASE (0), ALPHA (1), BETA (2) or RC (4), optionally combined with DEV
(8) — that is, one of 0, 1, 2, 4, 8, 9, 10, 12 — never two of ALPHA, BETA,
RC together. -/
theorem c10_at_most_one_channel (ns : ArgNamespace) (vt : Nat)
    (h : _parse_version_type ns = Except.ok (some vt)) :
    vt = 0 ∨ vt = 1 ∨ vt = 2 ∨ vt = 4 ∨ vt = 8 ∨ vt = 9 ∨ vt = 10 ∨ vt = 12 := by
  obtain ⟨m, w, a, b, c, d, r, dr⟩ := ns
  cases a <;> cases b <;> cases c <;> cases d <;> cases r <;>
    simp [_parse_version_type, VersionType.RELEASE, VersionType.ALPHA, VersionType.BETA,
      VersionType.RC, VersionType.DEV] at h <;> omega

/-- C10 witness: the vector --alpha --dev is accepted with expected type
ALPHA plus DEV, i.e. 9, which is among the legal values. -/
theorem c10_at_most_one_channel_witness :
    _parse_version_type (ArgNamespace.mk "m" "w" true false false true false false)
      = Except.ok (some 9)
    ∧ (9 = 0 ∨ 9 = 1 ∨ 9 = 2 ∨ 9 = 4 ∨ 9 = 8 ∨ 9 = 9 ∨ 9 = 10 ∨ 9 = 12) :=
  ⟨rfl, c10_at_most_one_channel (ArgNamespace.mk "m" "w" true false false true false false) 9 rfl⟩

/-- C4 (amended): every successful run exits with code 0 and prints the
message OK: package version is valid and not present on PyPI. — with the
literal text PyPI at the end, regardless of which registry base URL the
lookup actually used. -/
theorem c4_success_message_literal_pypi (p : Parameters)
    (fetch : String → String → FetchResult) (m : String)
    (h : cv.main p fetch = Except.ok m) :
    m = okMessage p.package p.version ∧ exitCode (cv.main p fetch) = 0 := by
  refine ⟨?_, by rw [h]; rfl⟩
  unfold cv.main at h
  split at h
  · cases h
  · split at h
    · cases h
    · split at h
      · cases h
      · cases h
        rfl

/-- C4 witness: a concrete dry run succeeds; its message is the okMessage
and its exit code is 0. -/
theorem c4_success_message_literal_pypi_witness :
    cv.main (Parameters.mk "https://pypi.org/pypi" "pkg" "1.0.0" none true)
        (fun _ _ => FetchResult.httpError) = Except.ok (okMessage "pkg" "1.0.0")
    ∧ (okMessage "pkg" "1.0.0"
        = okMessage (Parameters.mk "https://pypi.org/pypi" "pkg" "1.0.0" none true).package
            (Parameters.mk "https://pypi.org/pypi" "pkg" "1.0.0" none true).version
      ∧ exitCode (cv.main (Parameters.mk "https://pypi.org/pypi" "pkg" "1.0.0" none true)
          (fun _ _ => FetchResult.httpError)) = 0) :=
  ⟨by rfl, c4_success_message_literal_pypi _ _ _ (by rfl)⟩

/-- C4 counterexample: a successful run with the custom registry base URL
https-test.example-pypi prints the message with the literal text PyPI, and
that message is not the one the claim requires (which would name the
registry actually used). -/
theorem c4_warehouse_message_counterexample :
    cv.main (Parameters.mk "https://test.example/pypi" "pkg" "1.0.0" none false)
        (fun _ _ => FetchResult.success ["0.9.0"])
      = Except.ok "OK: pkg 1.0.0 is valid and not present on PyPI."
    ∧ ("OK: pkg 1.0.0 is valid and not present on PyPI."
        == "OK: pkg 1.0.0 is valid and not present on https://test.example/pypi.") = false := by
  constructor
  · rfl
  · decide

/-- C9: with the dry flag set, the run never consults the registry — its
outcome is the same for every fetch behaviour — and when the format check
and the (optional) type check pass, it succeeds with the OK message. -/
theorem c9_dry_run_skips_registry (p : Parameters)
    (f g : String → String → FetchResult) (hdry : p.dry_run = true) :
    cv.main p f = cv.main p g
    ∧ (checksPass p = true → cv.main p f = Except.ok (okMessage p.package p.version)) := by
  have hb : (!p.dry_run) = false := by rw [hdry]; rfl
  constructor
  · unfold cv.main
    rw [hb]
    rfl
  · intro hcp
    simp only [checksPass, Bool.and_eq_true] at hcp
    obtain ⟨h1, h2⟩ := hcp
    cases hcf : check_version_format p.package p.version with
    | error e =>
      rw [hcf] at h1
      simp [Except.isOk, Except.toBool] at h1
    | ok u =>
      cases he : p.expected_type with
      | none => simp [cv.main, hcf, he, hb]
      | some expected =>
        rw [he] at h2
        simp only at h2
        cases hct : check_version_type expected p.version with
        | error e2 =>
          rw [hct] at h2
          simp [Except.isOk, Except.toBool] at h2
        | ok u2 => simp [cv.main, hcf, he, hct, hb]

/-- C9 witness: a concrete dry run with no expected type passes the checks,
gives the same result under two different registry behaviours, and
succeeds with the OK message. -/
theorem c9_dry_run_skips_registry_witness :
    (Parameters.mk "https://pypi.org/pypi" "pkg" "1.0.0" none true).dry_run = true
    ∧ checksPass (Parameters.mk "https://pypi.org/pypi" "pkg" "1.0.0" none true) = true
    ∧ cv.main (Parameters.mk "https://pypi.org/pypi" "pkg" "1.0.0" none true)
        (fun _ _ => FetchResult.urlError)
      = cv.main (Parameters.mk "https://pypi.org/pypi" "pkg" "1.0.0" none true)
        (fun _ _ => FetchResult.success ["1.0.0"])
    ∧ cv.main (Parameters.mk "https://pypi.org/pypi" "pkg" "1.0.0" none true)
        (fun _ _ => FetchResult.urlError)
      = Except.ok (okMessage
          (Parameters.mk "https://pypi.org/pypi" "pkg" "1.0.0" none true).package
          (Parameters.mk "https://pypi.org/pypi" "pkg" "1.0.0" none true).version) :=
  ⟨rfl, by rfl,
    (c9_dry_run_skips_registry (Parameters.mk "https://pypi.org/pypi" "pkg" "1.0.0" none true)
      (fun _ _ => FetchResult.urlError) (fun _ _ => FetchResult.success ["1.0.0"]) rfl).1,
    (c9_dry_run_skips_registry (Parameters.mk "https://pypi.org/pypi" "pkg" "1.0.0" none true)
      (fun _ _ => FetchResult.urlError) (fun _ _ => FetchResult.success ["1.0.0"]) rfl).2
      (by rfl)⟩
